import Mathlib

/-!
Shallow embedding of `raspador/fields.py`: regular-expression driven field
extractors.  Python values flowing through the extraction pipeline are
modelled by the dynamic type `PyObj`; Python exceptions relevant to the code
(`TypeError`, `ValueError` raised by `int`/`float`/`strptime`,
`AttributeError`) by `PyErr`.  A compiled regular expression (the result of
`re.compile`) is external library state; it is modelled extensionally by the
pair of functions it supplies to the code: `findall` and `match`
(the structure `Mascara`).  Floating point numbers are modelled as rationals.
-/

/-- Python exceptions that the embedded code can raise. -/
inductive PyErr where
  | typeError
  | valueError
  | attributeError
deriving DecidableEq, Repr

/-- Dynamic Python values used by the field-extraction pipeline.
`pmatch gs` models an `re.Match` object whose `groups()` tuple is `gs`
(each element a string, or `pnone` for a group that did not participate). -/
inductive PyObj where
  | pnone
  | pstr (s : String)
  | ptup (xs : List PyObj)
  | plist (xs : List PyObj)
  | pbool (b : Bool)
  | pint (n : Int)
  | pfloat (q : Rat)
  | pdate (y m d : Nat)
  | pdatetime (y mo d h mi s : Nat)
  | pmatch (groups : List PyObj)

open PyObj

/-- Python truthiness (`bool(v)`). -/
def truthy : PyObj → Bool
  | pnone => false
  | pstr s => !(s == "")
  | ptup xs => !xs.isEmpty
  | plist xs => !xs.isEmpty
  | pbool b => b
  | pint n => !(n == 0)
  | pfloat q => !(q == 0)
  | pdate _ _ _ => true
  | pdatetime _ _ _ _ _ _ => true
  | pmatch _ => true

/-- Python `len(v)`: defined for strings, tuples and lists; `none` models the
`TypeError` that `len` raises on other values. -/
def pyLen : PyObj → Option Nat
  | pstr s => some s.length
  | ptup xs => some xs.length
  | plist xs => some xs.length
  | _ => none

/-- Python indexing `v[i]` for a non-negative in-bounds index (the code only
indexes under a bounds guard, or at index 0 of a length-1 value, so the
out-of-range default is never observable).  Indexing a string yields a
one-character string, as in Python. -/
def pyGetD : PyObj → Nat → PyObj
  | pstr s, i =>
      match s.toList[i]? with
      | some c => pstr (String.mk [c])
      | none => pnone
  | ptup xs, i => xs.getD i pnone
  | plist xs, i => xs.getD i pnone
  | _, _ => pnone

/-- Python `isinstance(v, list)`. -/
def isPList : PyObj → Bool
  | plist _ => true
  | _ => false

/-- Python identity test `v is None`. -/
def isNone : PyObj → Bool
  | pnone => true
  | _ => false

/-- Decimal digits to a natural number. -/
def digitsVal (cs : List Char) : Nat :=
  cs.foldl (fun a c => a * 10 + (c.toNat - 48)) 0

/-- A single-quote character, used by the Python repr of strings. -/
def squote : String :=
  String.singleton (Char.ofNat 39)

/-- Python `str.strip()` with no argument: drop leading and trailing
whitespace characters. -/
def stripChars (cs : List Char) : List Char :=
  ((cs.dropWhile Char.isWhitespace).reverse.dropWhile Char.isWhitespace).reverse

/-- Python `str.strip()` at the string level. -/
def pyStrip (s : String) : String :=
  String.mk (stripChars s.toList)

/-- Python `str.replace(pat, rep)` for a one-character pattern (every
`replace` call in the code uses a one-character pattern). -/
def pyReplace (s : String) (pat : Char) (rep : String) : String :=
  String.mk (s.toList.foldr (fun c acc => if c = pat then rep.toList ++ acc else c :: acc) [])

/-- Zero-padded two-digit decimal rendering, for date formatting. -/
def pad2 (n : Nat) : String :=
  if n < 10 then "0" ++ toString n else toString n

/-- ISO rendering of a calendar date, as Python `str(date(...))` produces. -/
def isoDate (y m d : Nat) : String :=
  toString y ++ "-" ++ pad2 m ++ "-" ++ pad2 d

mutual

/-- Python `repr(v)` on the fragment of values the pipeline can produce.
Strings are quoted (escaping inside the string is not modelled: the inputs in
this development contain no quotes or backslashes); floats, dates and match
objects never reach a `repr` call in the pipeline, so their rendering is a
placeholder. -/
def pyRepr : PyObj → String
  | pnone => "None"
  | pstr s => squote ++ s ++ squote
  | ptup [] => "()"
  | ptup [x] => "(" ++ pyRepr x ++ ",)"
  | ptup xs => "(" ++ pyReprSeq xs ++ ")"
  | plist xs => "[" ++ pyReprSeq xs ++ "]"
  | pbool true => "True"
  | pbool false => "False"
  | pint n => toString n
  | pfloat q => toString q
  | pdate y m d => isoDate y m d
  | pdatetime y mo d h mi s =>
      isoDate y mo d ++ " " ++ pad2 h ++ ":" ++ pad2 mi ++ ":" ++ pad2 s
  | pmatch _ => "<re.Match object>"

/-- Comma-separated reprs of the elements of a sequence. -/
def pyReprSeq : List PyObj → String
  | [] => ""
  | [x] => pyRepr x
  | x :: xs => pyRepr x ++ ", " ++ pyReprSeq xs

end

/-- Python `str(v)`: the string itself for strings, ISO form for dates,
`repr` otherwise (the cases differing from `repr`, such as floats, are not
reachable by the pipeline). -/
def pyStr : PyObj → String
  | pstr s => s
  | pdate y m d => isoDate y m d
  | pdatetime y mo d h mi s =>
      isoDate y mo d ++ " " ++ pad2 h ++ ":" ++ pad2 mi ++ ":" ++ pad2 s
  | v => pyRepr v

/-- Unsigned decimal integer literal, as accepted by Python `int(str)`
(digit-group underscores are not modelled). -/
def parseUnsignedInt (cs : List Char) : Option Int :=
  if cs.isEmpty || !cs.all Char.isDigit then none else some (digitsVal cs)

/-- Python `int(s)` for a string argument: surrounding whitespace is
stripped, an optional sign is allowed, the rest must be decimal digits;
`none` models the `ValueError` raised otherwise. -/
def pyIntOfString (s : String) : Option Int :=
  match stripChars s.toList with
  | '-' :: r => (parseUnsignedInt r).map (fun n => -n)
  | '+' :: r => parseUnsignedInt r
  | t => parseUnsignedInt t

/-- Unsigned decimal floating-point literal `digits[.digits]`, `.digits` or
`digits.`, as accepted by Python `float(str)` (exponent, `inf` and `nan`
forms are not modelled).  The value is represented exactly as a rational:
the digits joined across the point, divided by ten to the number of
fractional digits. -/
def parseUnsignedFloat (cs : List Char) : Option Rat :=
  let ip := cs.takeWhile Char.isDigit
  match cs.drop ip.length with
  | [] => if ip.isEmpty then none else some ((digitsVal ip : Rat))
  | '.' :: frac =>
      if frac.all Char.isDigit && !(ip.isEmpty && frac.isEmpty) then
        some (Rat.divInt (digitsVal (ip ++ frac)) ((10 : Int) ^ frac.length))
      else none
  | _ => none

/-- Python `float(s)` for a string argument: strips whitespace, optional
sign, then a decimal literal; `none` models the `ValueError`. -/
def pyFloatOfString (s : String) : Option Rat :=
  match stripChars s.toList with
  | '-' :: r => (parseUnsignedFloat r).map (fun q => -q)
  | '+' :: r => parseUnsignedFloat r
  | t => parseUnsignedFloat t

/-- The broken-down time record built by `strptime`; unspecified components
keep the Python defaults 1900-01-01 00:00:00. -/
structure TM where
  year : Nat
  month : Nat
  day : Nat
  hour : Nat
  minute : Nat
  second : Nat

/-- Greedy scan of at least one and at most `k` leading decimal digits. -/
def takeDigits (k : Nat) (inp : List Char) : Option (Nat × List Char) :=
  let ds := (inp.take k).takeWhile Char.isDigit
  if ds.isEmpty then none else some (digitsVal ds, inp.drop ds.length)

/-- Scan of exactly four decimal digits (the `%Y` directive). -/
def takeDigits4 (inp : List Char) : Option (Nat × List Char) :=
  let ds := (inp.take 4).takeWhile Char.isDigit
  if ds.length == 4 then some (digitsVal ds, inp.drop 4) else none

/-- Interpreter for `datetime.strptime` restricted to the directives the
code uses (`%d %m %Y %H %M %S`, literal characters and `%%`), with the
CPython ranges for each directive.  The whole input must be consumed;
any mismatch, unsupported directive or leftover input models the
`ValueError` Python raises.  (The day-fits-in-month check that `datetime`
performs afterwards is not modelled.) -/
def runStrptime : List Char → List Char → TM → Except PyErr TM
  | [], [], tm => .ok tm
  | [], _ :: _, _ => .error .valueError
  | '%' :: 'd' :: fr, inp, tm =>
      match takeDigits 2 inp with
      | some (v, rest) =>
          if 1 ≤ v ∧ v ≤ 31 then runStrptime fr rest { tm with day := v }
          else .error .valueError
      | none => .error .valueError
  | '%' :: 'm' :: fr, inp, tm =>
      match takeDigits 2 inp with
      | some (v, rest) =>
          if 1 ≤ v ∧ v ≤ 12 then runStrptime fr rest { tm with month := v }
          else .error .valueError
      | none => .error .valueError
  | '%' :: 'Y' :: fr, inp, tm =>
      match takeDigits4 inp with
      | some (v, rest) => runStrptime fr rest { tm with year := v }
      | none => .error .valueError
  | '%' :: 'H' :: fr, inp, tm =>
      match takeDigits 2 inp with
      | some (v, rest) =>
          if v ≤ 23 then runStrptime fr rest { tm with hour := v }
          else .error .valueError
      | none => .error .valueError
  | '%' :: 'M' :: fr, inp, tm =>
      match takeDigits 2 inp with
      | some (v, rest) =>
          if v ≤ 59 then runStrptime fr rest { tm with minute := v }
          else .error .valueError
      | none => .error .valueError
  | '%' :: 'S' :: fr, inp, tm =>
      match takeDigits 2 inp with
      | some (v, rest) =>
          if v ≤ 61 then runStrptime fr rest { tm with second := v }
          else .error .valueError
      | none => .error .valueError
  | '%' :: '%' :: fr, '%' :: ir, tm => runStrptime fr ir tm
  | '%' :: _ :: _, _, _ => .error .valueError
  | '%' :: [], _, _ => .error .valueError
  | _ :: _, [], _ => .error .valueError
  | c :: fr, i :: ir, tm =>
      if c = i then runStrptime fr ir tm else .error .valueError

/-- Python `datetime.strptime(valor, formato)`. -/
def strptime (valor formato : String) : Except PyErr TM :=
  runStrptime formato.toList valor.toList ⟨1900, 1, 1, 0, 0, 0⟩


/-- The closed set of field variants defined in `fields.py`
(`BaseField` and its five subclasses). -/
inductive FieldKind where
  | base
  | string
  | float
  | integer
  | boolean
  | date
  | datetime
deriving DecidableEq

/-- The value supplied for the `ao_atribuir` keyword argument: either a
Python callable (modelled by a Lean function on values) or an arbitrary
non-callable object. -/
inductive AoAtribuir where
  | func (f : PyObj → PyObj)
  | obj (v : PyObj)

/-- Python truthiness of the callback argument (functions are always
truthy; a non-callable object has the truthiness of its value). -/
def truthyAo : AoAtribuir → Bool
  | .func _ => true
  | .obj v => truthy v

/-- Python `isinstance(-, collections.Callable)` on the callback argument. -/
def callableAo : AoAtribuir → Bool
  | .func _ => true
  | .obj _ => false

/-- The value supplied for the `grupos` keyword argument: a single integer
(no `__iter__` attribute) or an iterable of integers.  The spec fixes the
indices as zero-based naturals. -/
inductive GruposArg where
  | one (i : Nat)
  | many (xs : List Nat)

/-- The normalisation performed by `BaseField.__init__`: a value without
`__iter__` is wrapped in a one-element tuple. -/
def normalizarGrupos : GruposArg → List Nat
  | .one i => [i]
  | .many xs => xs

/-- A compiled regular expression (`re.compile(mascara, re.UNICODE)`),
modelled extensionally by the two methods the code calls on it.
`findall linha` is the list of per-occurrence results (a string for a
0- or 1-group pattern, a tuple of captured groups otherwise); `rmatch linha`
is the result of `match`: `none` when the pattern does not match at the
start of the line, otherwise the `groups()` tuple of the match object
(with `pnone` for groups that did not participate). -/
structure Mascara where
  findall : String → List PyObj
  rmatch : String → Option (List PyObj)

/-- The state of a constructed field: the attributes `BaseField.__init__`
(and `_iniciar`, and the date subclasses) store on `self`.  `formato` is
only consulted by the date and date-time variants. -/
structure Campo where
  kind : FieldKind
  mascara : Option Mascara
  default : PyObj
  lista : Bool
  ao_atribuir : Option AoAtribuir
  grupos : List Nat
  formato : String

/-- The per-kind default of the `formato` attribute
(`DateField.__init__` and `DateTimeField.__init__`). -/
def formatoDefault : FieldKind → String
  | .datetime => "%d/%m/%Y %H:%M:%S"
  | _ => "%d/%m/%Y"

/-- The `_iniciar` hook: `BooleanField._iniciar` overwrites the configured
default with `False`; every other variant leaves the field unchanged. -/
def iniciar (f : Campo) : Campo :=
  match f.kind with
  | .boolean => { f with default := pbool false }
  | _ => f

/-- Construction (`BaseField.__init__` plus the subclass initialisers):
stores the configuration, raises `TypeError` when `ao_atribuir` is supplied,
truthy and not callable, normalises `grupos`, and runs `_iniciar`. -/
def fieldInit (kind : FieldKind) (mascara : Option Mascara) (default : PyObj)
    (lista : Bool) (ao : Option AoAtribuir) (grupos : GruposArg)
    (formato : Option String) : Except PyErr Campo :=
  if (match ao with
      | some a => truthyAo a && !callableAo a
      | none => false) then
    .error .typeError
  else
    .ok (iniciar
      { kind := kind
        mascara := mascara
        default := default
        lista := lista
        ao_atribuir := ao
        grupos := normalizarGrupos grupos
        formato := formato.getD (formatoDefault kind) })

/-- Whether a construction attempt succeeded. -/
def construcaoOk : Except PyErr Campo → Bool
  | .ok _ => true
  | .error _ => false

/-- The `_metodo_busca` property applied to a line: `mascara.findall` for
every variant except the boolean one, which uses `mascara.match`
(`pnone` models the `None` returned on a failed match). -/
def metodoBusca (kind : FieldKind) (m : Mascara) (linha : String) : PyObj :=
  match kind with
  | .boolean =>
      match m.rmatch linha with
      | some gs => pmatch gs
      | none => pnone
  | _ => plist (m.findall linha)

/-- The `_resultado_valido` predicate: truthiness of the raw search result
for the base variants; for the boolean variant, `valor and valor.groups()`,
i.e. a match object whose groups tuple is non-empty.  (A truthy non-match
value would raise `AttributeError` in Python; no such value reaches this
check in the pipeline.) -/
def resultadoValido (kind : FieldKind) (valor : PyObj) : Bool :=
  match kind with
  | .boolean =>
      match valor with
      | pmatch gs => !gs.isEmpty
      | _ => false
  | _ => truthy valor

/-- The group-selection phase of `BaseField._converter` (executed only when
`self.grupos` is non-empty): unwrap a length-1 value to its only element,
then keep `valor[i]` for the configured indices `i` that are in bounds.
The two `len` calls model the `TypeError` raised on a value without a
length. -/
def selecionarGrupos (grupos : List Nat) (valor : PyObj) : Except PyErr PyObj :=
  match pyLen valor with
  | none => .error .typeError
  | some n1 =>
      let valor1 := if n1 == 1 then pyGetD valor 0 else valor
      match pyLen valor1 with
      | none => .error .typeError
      | some tamanho =>
          .ok (plist ((grupos.filter (fun i => decide (i < tamanho))).map (pyGetD valor1)))

/-- `BaseField._converter`: optional group selection, then the final
singleton collapse (a length-1 value is replaced by its only element). -/
def converterBase (grupos : List Nat) (valor : PyObj) : Except PyErr PyObj :=
  match (if grupos.isEmpty then Except.ok valor else selecionarGrupos grupos valor) with
  | .error e => .error e
  | .ok valor2 =>
      match pyLen valor2 with
      | none => .error .typeError
      | some n2 => .ok (if n2 == 1 then pyGetD valor2 0 else valor2)

/-- The `_converter` method by variant: `BooleanField._converter` first
replaces the match object by its groups tuple (or `False` when the raw
value is falsy) and then delegates to the base algorithm; every other
variant uses the base algorithm directly.  (A truthy non-match value would
raise `AttributeError` at the `valor.groups()` call.) -/
def converterField (kind : FieldKind) (grupos : List Nat) (valor : PyObj) :
    Except PyErr PyObj :=
  match kind with
  | .boolean =>
      match valor with
      | pmatch gs => converterBase grupos (ptup gs)
      | v => if truthy v then .error .attributeError else converterBase grupos (pbool false)
  | _ => converterBase grupos valor

/-- `FloatField.to_python` on a string: remove every thousands separator
`.`, turn the decimal `,` into `.`, then parse as a float. -/
def floatOfString (s : String) : Except PyErr PyObj :=
  match pyFloatOfString (pyReplace (pyReplace s '.' ("")) ',' (".")) with
  | some q => .ok (pfloat q)
  | none => .error .valueError

/-- `FloatField.to_python`: the `.replace` calls require a string receiver;
any other value raises `AttributeError`. -/
def floatToPython : PyObj → Except PyErr PyObj
  | pstr s => floatOfString s
  | _ => .error .attributeError

/-- `IntegerField.to_python`, i.e. Python `int(valor)`: parses a string,
passes numbers through (truncating rationals toward zero), and raises
`TypeError` on sequences and `None`. -/
def intToPython : PyObj → Except PyErr PyObj
  | pstr s =>
      match pyIntOfString s with
      | some n => .ok (pint n)
      | none => .error .valueError
  | pint n => .ok (pint n)
  | pbool b => .ok (pint (if b then 1 else 0))
  | pfloat q => .ok (pint (if q < 0 then -((-q).floor) else q.floor))
  | _ => .error .typeError

/-- `DateField.to_python`: `datetime.strptime(valor, formato).date()`;
`strptime` raises `TypeError` unless `valor` is a string. -/
def dateToPython (formato : String) : PyObj → Except PyErr PyObj
  | pstr s =>
      match strptime s formato with
      | .ok tm => .ok (pdate tm.year tm.month tm.day)
      | .error e => .error e
  | _ => .error .typeError

/-- `DateTimeField.to_python`: `datetime.strptime(valor, formato)`. -/
def datetimeToPython (formato : String) : PyObj → Except PyErr PyObj
  | pstr s =>
      match strptime s formato with
      | .ok tm => .ok (pdatetime tm.year tm.month tm.day tm.hour tm.minute tm.second)
      | .error e => .error e
  | _ => .error .typeError

/-- The `to_python` method by variant: identity for `BaseField`,
`str(valor).strip()` for `StringField`, the numeric parses for
`FloatField`/`IntegerField`, `bool(valor)` for `BooleanField`, and the
`strptime` wrappers for the date variants. -/
def toPython (kind : FieldKind) (formato : String) (valor : PyObj) :
    Except PyErr PyObj :=
  match kind with
  | .base => .ok valor
  | .string => .ok (pstr (pyStrip (pyStr valor)))
  | .float => floatToPython valor
  | .integer => intToPython valor
  | .boolean => .ok (pbool (truthy valor))
  | .date => dateToPython formato valor
  | .datetime => datetimeToPython formato valor

/-- The `ao_atribuir` step of `parse_block`: applied only when the stored
callback is truthy; calling a truthy non-callable object would raise
`TypeError`. -/
def aplicarCallback (ao : Option AoAtribuir) (valor : PyObj) : Except PyErr PyObj :=
  match ao with
  | none => .ok valor
  | some a =>
      if truthyAo a then
        match a with
        | .func g => .ok (g valor)
        | .obj _ => .error .typeError
      else .ok valor

/-- The list-wrapping step of `parse_block`:
`if valor is not None and self.lista and not isinstance(valor, list)`. -/
def listWrap (lista : Bool) (valor : PyObj) : PyObj :=
  if !isNone valor && lista && !isPList valor then plist [valor] else valor

/-- `BaseField.parse_block`, the per-line extraction entry point.  A `None`
result (`pnone`) models the implicit `return None` on a missing pattern or
an invalid search result; conversion errors propagate. -/
def parse_block (f : Campo) (linha : String) : Except PyErr PyObj :=
  match f.mascara with
  | none => .ok pnone
  | some m =>
      let valor := metodoBusca f.kind m linha
      if resultadoValido f.kind valor then
        match converterField f.kind f.grupos valor with
        | .error e => .error e
        | .ok v2 =>
            match toPython f.kind f.formato v2 with
            | .error e => .error e
            | .ok v3 =>
                match aplicarCallback f.ao_atribuir v3 with
                | .error e => .error e
                | .ok v4 => .ok (listWrap f.lista v4)
      else .ok pnone

/-- The singleton collapse: a value of length 1 is replaced by its only
element; other values (including those without a length) are unchanged. -/
def singletonCollapse (valor : PyObj) : PyObj :=
  match pyLen valor with
  | some n => if n == 1 then pyGetD valor 0 else valor
  | none => valor

/-- The group-selection algorithm as the specification words it
(collapse, keep the configured in-bounds indices, collapse again), stated
as a total function; written independently of `converterBase` to compare
the code against it. -/
def groupSelectionSpec (grupos : List Nat) (valor : PyObj) : PyObj :=
  let v1 := singletonCollapse valor
  let tamanho := (pyLen v1).getD 0
  singletonCollapse (plist ((grupos.filter (fun i => decide (i < tamanho))).map (pyGetD v1)))

/-- The compiled pattern `^OK$` (no capture group), restricted to the lines
exercised by the theorems; its `findall` method is never invoked by the
boolean search strategy. -/
def mascaraOkSemGrupo : Mascara :=
  { findall := fun linha => if linha == "OK" then [pstr ("OK")] else []
    rmatch := fun linha => if linha == "OK" then some [] else none }

/-- The compiled pattern `^(OK)$` (one capture group), restricted to the
lines exercised by the theorems. -/
def mascaraOkComGrupo : Mascara :=
  { findall := fun linha => if linha == "OK" then [pstr ("OK")] else []
    rmatch := fun linha => if linha == "OK" then some [pstr ("OK")] else none }

/-- The compiled pattern `^([0-9]*)` under the `match` strategy: it matches
every line at its start and captures the maximal (possibly empty) leading
run of digits.  Its `findall` method is never invoked by the boolean search
strategy and is left trivial. -/
def mascaraDigitosIniciais : Mascara :=
  { findall := fun _ => []
    rmatch := fun linha => some [pstr (String.mk (linha.toList.takeWhile Char.isDigit))] }

/-- The compiled pattern `([0-9]+)/([0-9]+)` (two capture groups),
restricted to the lines exercised by the theorems. -/
def mascaraParNumeros : Mascara :=
  { findall := fun linha =>
      if linha == "02/01" then [ptup [pstr ("02"), pstr ("01")]] else []
    rmatch := fun linha =>
      if linha == "02/01" then some [pstr ("02"), pstr ("01")] else none }

/-- The compiled pattern `^(a)?b`: on the line `b` it matches with its one
optional group not participating (`groups()` is `(None,)`); on `ab` it
matches capturing `a`. -/
def mascaraGrupoOpcional : Mascara :=
  { findall := fun linha =>
      if linha == "b" then [pstr ("")] else if linha == "ab" then [pstr ("a")] else []
    rmatch := fun linha =>
      if linha == "b" then some [pnone]
      else if linha == "ab" then some [pstr ("a")] else none }

/-- The compiled pattern `([a-z]+)` (one capture group), restricted to the
lines exercised by the theorems. -/
def mascaraLetras : Mascara :=
  { findall := fun linha => if linha == "abc" then [pstr ("abc")] else []
    rmatch := fun linha => if linha == "abc" then some [pstr ("abc")] else none }

/-- A base field constructed without a pattern. -/
def campoSemMascara : Campo :=
  { kind := .base, mascara := none, default := pnone, lista := false
    ao_atribuir := none, grupos := [], formato := formatoDefault .base }

/-- A boolean field over `^OK$`. -/
def campoOkSemGrupo : Campo :=
  { kind := .boolean, mascara := some mascaraOkSemGrupo, default := pbool false
    lista := false, ao_atribuir := none, grupos := [], formato := formatoDefault .boolean }

/-- A boolean field over `^(OK)$`. -/
def campoOkComGrupo : Campo :=
  { kind := .boolean, mascara := some mascaraOkComGrupo, default := pbool false
    lista := false, ao_atribuir := none, grupos := [], formato := formatoDefault .boolean }

/-- A boolean field over `^([0-9]*)`. -/
def campoBoolDigitos : Campo :=
  { kind := .boolean, mascara := some mascaraDigitosIniciais, default := pbool false
    lista := false, ao_atribuir := none, grupos := [], formato := formatoDefault .boolean }

/-- A float field over `([0-9]+)/([0-9]+)`. -/
def campoFloatPar : Campo :=
  { kind := .float, mascara := some mascaraParNumeros, default := pnone
    lista := false, ao_atribuir := none, grupos := [], formato := formatoDefault .float }

/-- A base field over `([0-9]+)/([0-9]+)` (its `lista` flag is toggled by
record update in the theorems that use it). -/
def campoBasePar : Campo :=
  { kind := .base, mascara := some mascaraParNumeros, default := pnone
    lista := false, ao_atribuir := none, grupos := [], formato := formatoDefault .base }

/-- A boolean field over `^(a)?b` with group selection `[0]`. -/
def campoBoolOpcional : Campo :=
  { kind := .boolean, mascara := some mascaraGrupoOpcional, default := pbool false
    lista := false, ao_atribuir := none, grupos := [0], formato := formatoDefault .boolean }

/-- An integer field over `([a-z]+)`. -/
def campoIntLetras : Campo :=
  { kind := .integer, mascara := some mascaraLetras, default := pnone
    lista := false, ao_atribuir := none, grupos := [], formato := formatoDefault .integer }

/-- The boolean field produced by a construction call that supplies the
default value 42; used to instantiate the construction theorems. -/
def campoBoolConstruido : Campo :=
  { kind := .boolean, mascara := none, default := pbool false
    lista := false, ao_atribuir := none, grupos := [], formato := formatoDefault .boolean }


/-- The step applied by `parse_block` when `lista` is disabled is the
identity. -/
theorem listWrap_false (v : PyObj) : listWrap false v = v := by
  simp [listWrap]

/-- Evaluation of the Python length of a list value. -/
theorem pyLen_plist (xs : List PyObj) : pyLen (plist xs) = some xs.length := rfl

/-- C5: for every field constructed without a pattern and every input line,
extraction returns no value. -/
theorem C5_no_pattern_no_value (f : Campo) (linha : String)
    (h : f.mascara = none) : parse_block f linha = .ok pnone := by
  unfold parse_block
  rw [h]

/-- Witness for C5 at a concrete field and line. -/
theorem C5_no_pattern_no_value_witness :
    parse_block campoSemMascara ("02/01/2013 10:21:51") = .ok pnone :=
  C5_no_pattern_no_value campoSemMascara ("02/01/2013 10:21:51") rfl

/-- C10: a boolean field constructed with any default option reads back a
default of `False`: the `_iniciar` hook overwrites the stored default. -/
theorem C10_boolean_default_false (mascara : Option Mascara) (d : PyObj)
    (lista : Bool) (ao : Option AoAtribuir) (grupos : GruposArg)
    (formato : Option String) (f : Campo)
    (h : fieldInit .boolean mascara d lista ao grupos formato = .ok f) :
    f.default = pbool false := by
  unfold fieldInit at h
  split at h
  · exact absurd h (by simp)
  · injection h with h
    subst h
    rfl

/-- Witness for C10: constructing a boolean field with default 42 yields a
field whose default is `False`. -/
theorem C10_boolean_default_false_witness :
    campoBoolConstruido.default = pbool false :=
  C10_boolean_default_false none (pint 42) false none (.many []) none
    campoBoolConstruido rfl

/-- C9 counterexample: supplying the falsy non-callable object `0` as the
`ao_atribuir` callback does not fail construction, contradicting the claim
that every non-invocable supplied callback is rejected. -/
theorem C9_falsy_noncallable_accepted :
    construcaoOk
        (fieldInit .base none pnone false (some (.obj (pint 0))) (.many []) none)
      = true := rfl

/-- C9 amended: construction succeeds when no callback or a callable one is
supplied; a supplied non-callable object is rejected with `TypeError`
exactly when it is truthy (the guard `if self.ao_atribuir and not
isinstance(...)` skips falsy values). -/
theorem C9_callback_validation :
    ∀ (kind : FieldKind) (mascara : Option Mascara) (d : PyObj) (lista : Bool)
      (grupos : GruposArg) (formato : Option String) (g : PyObj → PyObj)
      (v : PyObj),
      construcaoOk (fieldInit kind mascara d lista none grupos formato) = true
      ∧ construcaoOk
          (fieldInit kind mascara d lista (some (.func g)) grupos formato) = true
      ∧ construcaoOk
          (fieldInit kind mascara d lista (some (.obj v)) grupos formato)
        = !truthy v
      ∧ (truthy v = true →
          fieldInit kind mascara d lista (some (.obj v)) grupos formato
            = .error .typeError) := by
  intro kind mascara d lista grupos formato g v
  refine ⟨rfl, rfl, ?_, ?_⟩
  · cases h : truthy v <;>
      simp [fieldInit, truthyAo, callableAo, construcaoOk, h]
  · intro h
    simp [fieldInit, truthyAo, callableAo, h]

/-- Witness for C9 at a concrete truthy non-callable callback value. -/
theorem C9_callback_validation_witness :
    fieldInit .base none pnone false (some (.obj (pstr ("x")))) (.many []) none
      = .error .typeError :=
  (C9_callback_validation .base none pnone false (.many []) none id
    (pstr ("x"))).2.2.2 rfl

/-- C8: when the pipeline reaches conversion and the converter of the
variant fails, `parse_block` propagates that error to its caller; it is not
caught, not retried, and the default of the field is not substituted. -/
theorem C8_conversion_error_propagates (f : Campo) (m : Mascara)
    (linha : String) (v : PyObj) (e : PyErr)
    (hm : f.mascara = some m)
    (hv : resultadoValido f.kind (metodoBusca f.kind m linha) = true)
    (hc : converterField f.kind f.grupos (metodoBusca f.kind m linha) = .ok v)
    (he : toPython f.kind f.formato v = .error e) :
    parse_block f linha = .error e := by
  unfold parse_block
  rw [hm]
  simp only [hv, if_true, hc, he]

/-- Witness for C8: an integer field whose pattern selected the non-numeric
text abc raises `ValueError` from `parse_block`. -/
theorem C8_conversion_error_propagates_witness :
    parse_block campoIntLetras ("abc") = .error .valueError :=
  C8_conversion_error_propagates campoIntLetras mascaraLetras ("abc")
    (pstr ("abc")) .valueError rfl rfl rfl rfl

/-- C7: conversion of a scalar string by the float variant removes every
dot, turns the comma into a dot, and parses the result; in particular the
dot-grouped comma-decimal string 1.234,56 becomes the rational 1234.56 and
0,5 becomes 0.5. -/
theorem C7_float_locale_conversion :
    (∀ s : String,
        floatToPython (pstr s)
          = (match pyFloatOfString (pyReplace (pyReplace s '.' ("")) ',' (".")) with
             | some q => Except.ok (pfloat q)
             | none => Except.error .valueError))
    ∧ toPython .float (formatoDefault .float) (pstr ("1.234,56"))
        = .ok (pfloat ((30864 : Rat)/25))
    ∧ toPython .float (formatoDefault .float) (pstr ("0,5"))
        = .ok (pfloat ((1 : Rat)/2)) := by
  refine ⟨fun s => rfl, ?_, ?_⟩
  · rw [show toPython .float (formatoDefault .float) (pstr ("1.234,56"))
        = .ok (pfloat (Rat.divInt (123456 : Int) ((10 : Int) ^ 2))) from rfl]
    norm_num [Rat.divInt_eq_div]
  · rw [show toPython .float (formatoDefault .float) (pstr ("0,5"))
        = .ok (pfloat (Rat.divInt (5 : Int) ((10 : Int) ^ 1))) from rfl]
    norm_num [Rat.divInt_eq_div]

/-- C2 counterexample: on a float field whose pattern captures two groups
in one occurrence, group selection yields a sequence of two strings, yet
the converter raises `AttributeError` instead of converting element-wise to
a sequence of floats. -/
theorem C2_not_elementwise_counterexample :
    converterField campoFloatPar.kind campoFloatPar.grupos
        (metodoBusca campoFloatPar.kind mascaraParNumeros ("02/01"))
      = .ok (ptup [pstr ("02"), pstr ("01")])
    ∧ parse_block campoFloatPar ("02/01") = .error .attributeError :=
  ⟨rfl, rfl⟩

/-- C2 amended: no converter maps element-wise over a sequence; the float
variant raises `AttributeError` on any sequence, the integer, date and
date-time variants raise `TypeError`, and the string variant stringifies
the sequence as a whole and strips the result. -/
theorem C2_converters_whole_value :
    ∀ (xs : List PyObj) (formato : String),
      toPython .float formato (plist xs) = .error .attributeError
      ∧ toPython .float formato (ptup xs) = .error .attributeError
      ∧ toPython .integer formato (plist xs) = .error .typeError
      ∧ toPython .integer formato (ptup xs) = .error .typeError
      ∧ toPython .date formato (plist xs) = .error .typeError
      ∧ toPython .datetime formato (plist xs) = .error .typeError
      ∧ toPython .string formato (plist xs)
          = .ok (pstr (pyStrip (pyStr (plist xs)))) :=
  fun _ _ => ⟨rfl, rfl, rfl, rfl, rfl, rfl, rfl⟩

/-- C1 counterexample: on the boolean field over `^([0-9]*)` and the line
abc, the anchored match succeeds and captures one group (the empty string),
so the value converter is reached; yet extraction produces the value
`False`, contradicting the claim that the converter always yields true. -/
theorem C1_boolean_false_produced :
    resultadoValido campoBoolDigitos.kind
        (metodoBusca campoBoolDigitos.kind mascaraDigitosIniciais ("abc")) = true
    ∧ parse_block campoBoolDigitos ("abc") = .ok (pbool false) :=
  ⟨rfl, rfl⟩

/-- C1 amended: the boolean converter yields `bool` of the collapsed group
data, so it produces true whenever the match captured at least one group
and every captured group is a non-empty string (here stated for a field
without group selection, callback or list mode); a lone empty or
non-participating capture makes it produce false instead. -/
theorem C1_boolean_converter_truthy (f : Campo) (m : Mascara) (linha : String)
    (gs : List PyObj)
    (hk : f.kind = .boolean) (hm : f.mascara = some m)
    (hg : f.grupos = []) (hao : f.ao_atribuir = none) (hl : f.lista = false)
    (hr : m.rmatch linha = some gs) (hne : gs ≠ [])
    (hall : ∀ g ∈ gs, ∃ s, g = pstr s ∧ s ≠ "") :
    parse_block f linha = .ok (pbool true) := by
  have hb : metodoBusca f.kind m linha = pmatch gs := by
    rw [hk]
    unfold metodoBusca
    rw [hr]
  have hvalid : resultadoValido f.kind (pmatch gs) = true := by
    rw [hk]
    unfold resultadoValido
    simpa using hne
  have hconv : converterField f.kind f.grupos (pmatch gs)
      = .ok (if gs.length == 1 then gs.getD 0 pnone else ptup gs) := by
    rw [hk, hg]
    rfl
  have htruthy : truthy (if gs.length == 1 then gs.getD 0 pnone else ptup gs)
      = true := by
    cases hlen : gs.length == 1 with
    | true =>
      obtain ⟨g, hgs⟩ := List.length_eq_one.mp (by simpa using hlen)
      obtain ⟨s, hgl, hs⟩ := hall g (by simp [hgs])
      simp [hgs, hgl, truthy, hs]
    | false => simpa [truthy] using hne
  have hto : toPython f.kind f.formato
      (if gs.length == 1 then gs.getD 0 pnone else ptup gs)
      = .ok (pbool true) := by
    rw [hk]
    unfold toPython
    rw [htruthy]
  unfold parse_block
  rw [hm]
  simp only [hb, hvalid, if_true, hconv, hto, hao, hl]
  rfl

/-- Witness for C1 at the boolean field over `^(OK)$` and the line OK. -/
theorem C1_boolean_converter_truthy_witness :
    parse_block campoOkComGrupo ("OK") = .ok (pbool true) :=
  C1_boolean_converter_truthy campoOkComGrupo mascaraOkComGrupo ("OK")
    [pstr ("OK")] rfl rfl rfl rfl rfl rfl (by simp)
    (fun g hg => ⟨"OK", by simpa using hg, by decide⟩)

/-- C4 counterexample: on the boolean field over `^([0-9]*)` and the line
a1, the anchored match succeeds with one captured group, yet extraction
yields the value `False`, not true as the claim states. -/
theorem C4_nonempty_group_not_true :
    mascaraDigitosIniciais.rmatch ("a1") = some [pstr ("")]
    ∧ parse_block campoBoolDigitos ("a1") = .ok (pbool false) :=
  ⟨rfl, rfl⟩

/-- C4 amended: a boolean field yields no value when the anchored match
succeeds with zero captured groups; with at least one captured group it
yields a value, which is true when the captured content is truthy: the
pattern `^OK$` on the line OK gives no value, while `^(OK)$` on OK gives
true. -/
theorem C4_boolean_match_validity :
    (∀ (f : Campo) (m : Mascara) (linha : String),
        f.kind = .boolean → f.mascara = some m → m.rmatch linha = some [] →
        parse_block f linha = .ok pnone)
    ∧ parse_block campoOkSemGrupo ("OK") = .ok pnone
    ∧ parse_block campoOkComGrupo ("OK") = .ok (pbool true) := by
  refine ⟨?_, rfl, rfl⟩
  intro f m linha hk hm hr
  have hb : metodoBusca f.kind m linha = pmatch [] := by
    rw [hk]
    unfold metodoBusca
    rw [hr]
  have hvalid : resultadoValido f.kind (pmatch []) = false := by
    rw [hk]
    rfl
  unfold parse_block
  rw [hm]
  simp only [hb, hvalid, Bool.false_eq_true, if_false]

/-- Witness for C4 applying the zero-group part at the field over `^OK$`. -/
theorem C4_boolean_match_validity_witness :
    parse_block campoOkSemGrupo ("OK") = .ok pnone :=
  C4_boolean_match_validity.1 campoOkSemGrupo mascaraOkSemGrupo ("OK")
    rfl rfl rfl

/-- The `lista` flag influences only the final wrapping step of
`parse_block`: the result with `lista` enabled is the result with it
disabled, mapped through the wrapping step. -/
theorem parse_block_lista_map (f : Campo) (linha : String) :
    parse_block { f with lista := true } linha
      = (parse_block { f with lista := false } linha).map (listWrap true) := by
  obtain ⟨kind, mascara, d, lista, ao, grupos, formato⟩ := f
  unfold parse_block
  cases mascara with
  | none => rfl
  | some m =>
    simp only
    cases hv : resultadoValido kind (metodoBusca kind m linha) with
    | false => simp [hv, Except.map, listWrap, isNone]
    | true =>
      simp only [hv, if_true]
      cases hc : converterField kind grupos (metodoBusca kind m linha) with
      | error e => simp [Except.map]
      | ok v2 =>
        cases ht : toPython kind formato v2 with
        | error e => simp [ht, Except.map]
        | ok v3 =>
          simp only [ht]
          cases ha : aplicarCallback ao v3 with
          | error e => simp [ha, Except.map]
          | ok v4 => simp [ha, Except.map, listWrap_false]

/-- C3 counterexample: on a base field over `([0-9]+)/([0-9]+)` the two
captured groups of the single occurrence survive selection, so extraction
without list mode yields a sequence (a tuple of two strings); with list
mode enabled that same sequence is nested inside a new one-element list,
contradicting the claim that a sequence result is passed through
unchanged. -/
theorem C3_tuple_nested_counterexample :
    parse_block campoBasePar ("02/01") = .ok (ptup [pstr ("02"), pstr ("01")])
    ∧ parse_block { campoBasePar with lista := true } ("02/01")
      = .ok (plist [ptup [pstr ("02"), pstr ("01")]]) :=
  ⟨rfl, rfl⟩

/-- C3 amended: with list mode enabled, a `None` result stays `None`, a
result that is already a list is returned unchanged, and any other result
(scalar or tuple) is wrapped into a one-element list: only lists are
exempt from wrapping, not sequences in general. -/
theorem C3_list_wrap_behavior (f : Campo) (linha : String) (v : PyObj)
    (h : parse_block { f with lista := false } linha = .ok v) :
    parse_block { f with lista := true } linha
      = .ok (if isNone v then v else if isPList v then v else plist [v]) := by
  rw [parse_block_lista_map, h]
  cases hn : isNone v <;> cases hp : isPList v <;>
    simp [Except.map, listWrap, hn, hp]

/-- Witness for C3: the tuple extracted by the base field over
`([0-9]+)/([0-9]+)` is not a list and not `None`, so list mode wraps it
into a one-element list. -/
theorem C3_list_wrap_behavior_witness :
    parse_block { campoBasePar with lista := true } ("02/01")
      = .ok (if isNone (ptup [pstr ("02"), pstr ("01")])
             then ptup [pstr ("02"), pstr ("01")]
             else if isPList (ptup [pstr ("02"), pstr ("01")])
             then ptup [pstr ("02"), pstr ("01")]
             else plist [ptup [pstr ("02"), pstr ("01")]]) :=
  C3_list_wrap_behavior campoBasePar ("02/01") (ptup [pstr ("02"), pstr ("01")])
    rfl

/-- C6 counterexample: on the boolean field over `^(a)?b` with group
selection `[0]`, the line b matches with its one group not participating;
group selection then raises `TypeError` (the singleton collapse produces
`None`, which has no length), so selection over raw match data can raise,
contradicting the claim that it never causes an error. -/
theorem C6_group_selection_error_counterexample :
    parse_block campoBoolOpcional ("b") = .error .typeError
    ∧ converterBase [0] (ptup [pnone]) = .error .typeError :=
  ⟨rfl, rfl⟩

/-- C6 amended: for a non-empty group selection, whenever the raw data and
its singleton collapse both carry a length (a string, tuple or list — as
every value produced by the find-all strategy does), the selection keeps
exactly the configured in-bounds indices in order, silently dropping
out-of-range indices without error, and collapses a singleton result. -/
theorem C6_group_selection_in_bounds (grupos : List Nat) (valor : PyObj)
    (hg : grupos ≠ []) (h1 : (pyLen valor).isSome = true)
    (h2 : (pyLen (singletonCollapse valor)).isSome = true) :
    converterBase grupos valor = .ok (groupSelectionSpec grupos valor) := by
  obtain ⟨n1, hn1⟩ := Option.isSome_iff_exists.mp h1
  have hge : grupos.isEmpty = false := by
    cases grupos with
    | nil => exact absurd rfl hg
    | cons a l => rfl
  have hsc : singletonCollapse valor
      = if n1 == 1 then pyGetD valor 0 else valor := by
    unfold singletonCollapse
    rw [hn1]
  rw [hsc] at h2
  obtain ⟨t, ht⟩ := Option.isSome_iff_exists.mp h2
  unfold converterBase selecionarGrupos groupSelectionSpec singletonCollapse
  simp only [hge, Bool.false_eq_true, if_false, hn1, ht, Option.getD_some, pyLen_plist]

/-- Witness for C6: selecting indices 0 and 5 from a two-group match keeps
group 0, drops the out-of-range index 5 silently, and collapses the
singleton selection to the scalar string a. -/
theorem C6_group_selection_in_bounds_witness :
    converterBase [0, 5] (plist [ptup [pstr ("a"), pstr ("b")]])
      = .ok (pstr ("a")) :=
  Eq.trans
    (C6_group_selection_in_bounds [0, 5] (plist [ptup [pstr ("a"), pstr ("b")]])
      (by simp) rfl rfl)
    rfl
